import Mathlib

/-!
Verification of the LibraryCommon error-handling toolkit: a shallow embedding
of src/Result.h (the Result container and its void specialization), of the
errorCodeToString table in src/ErrorCodes.h, and of the RETURN_IF_ERROR
propagation macro in src/LibraryCommon.h, followed by theorems about the
claimed properties.
-/

namespace common

/-- Shallow embedding of the C++ class template common::Result<T,E> from
src/Result.h. The class unconditionally stores all three members
value_, error_ and hasValue_ (lines 218 to 222), so every instance is a
triple of these fields. -/
structure Result (T E : Type) where
  value_ : T
  error_ : E
  hasValue_ : Bool
  deriving DecidableEq

namespace Result

variable {T E U : Type}

/-- Constructor Result(const T and) and Result(T and-and): success value,
error_ initialized to static_cast<E>(0), hasValue_ true (lines 67 to 75).
The cast of 0 into E is modelled by the Zero instance. -/
def mkOk [Zero E] (v : T) : Result T E := ⟨v, 0, true⟩

/-- Constructor Result(E): error result; value_ is value-initialized,
modelled by the Inhabited default, error_ holds the code, hasValue_ false
(lines 81 to 82). -/
def mkError [Inhabited T] (e : E) : Result T E := ⟨default, e, false⟩

/-- Static factory Result::ok (lines 103 to 114): delegates to the value
constructor. -/
def ok [Zero E] (v : T) : Result T E := mkOk v

/-- Static factory Result::error (lines 121 to 123): delegates to the error
constructor. -/
def error [Inhabited T] (e : E) : Result T E := mkError e

/-- Tagged constructor Result(SuccessTag, const T and) (lines 88 to 89). -/
def mkOkTag [Zero E] (v : T) : Result T E := ⟨v, 0, true⟩

/-- Tagged constructor Result(ErrorTag, E) (lines 95 to 96). -/
def mkErrorTag [Inhabited T] (e : E) : Result T E := ⟨default, e, false⟩

/-- Member isOk (line 129): returns hasValue_. -/
def isOk (r : Result T E) : Bool := r.hasValue_

/-- Member isError (line 135): returns the negation of hasValue_. -/
def isError (r : Result T E) : Bool := !r.hasValue_

/-- Explicit operator bool (line 140): returns hasValue_. -/
def toBool (r : Result T E) : Bool := r.hasValue_

/-- Member value (lines 147 to 161): returns value_ unconditionally in all
three reference qualifications. -/
def value (r : Result T E) : T := r.value_

/-- Member error accessor (line 168): returns error_ unconditionally. -/
def getError (r : Result T E) : E := r.error_

/-- Member valueOr (lines 175 to 186): held value on success, the default
argument on error. -/
def valueOr (r : Result T E) (d : T) : T := if r.hasValue_ then r.value_ else d

/-- Member map (lines 194 to 201): on success wraps f applied to value_ with
ResultType::ok, on error returns ResultType::error(error_). -/
def map [Zero E] [Inhabited U] (r : Result T E) (f : T → U) : Result U E :=
  if r.hasValue_ then Result.ok (f r.value_) else Result.error r.error_

/-- Member andThen (lines 209 to 216): on success returns f applied to
value_ directly, on error returns ResultType::error(error_). -/
def andThen [Inhabited U] (r : Result T E) (f : T → Result U E) : Result U E :=
  if r.hasValue_ then f r.value_ else Result.error r.error_

end Result

/-- Shallow embedding of the partial specialization common::Result<void,E>
from src/Result.h lines 227 to 298: no value slot, only error_ and
hasValue_. -/
structure ResultVoid (E : Type) where
  error_ : E
  hasValue_ : Bool
  deriving DecidableEq

namespace ResultVoid

variable {E : Type}

/-- Default constructor Result() (line 236): success, error_ set to
static_cast<E>(0). -/
def mkOk [Zero E] : ResultVoid E := ⟨0, true⟩

/-- Constructor Result(E) (line 242): error result. -/
def mkError (e : E) : ResultVoid E := ⟨e, false⟩

/-- Static factory ok (lines 259 to 261). -/
def ok [Zero E] : ResultVoid E := mkOk

/-- Static factory error (lines 268 to 270). -/
def error (e : E) : ResultVoid E := mkError e

/-- Member isOk (line 276). -/
def isOk (r : ResultVoid E) : Bool := r.hasValue_

/-- Member isError (line 282). -/
def isError (r : ResultVoid E) : Bool := !r.hasValue_

/-- Explicit operator bool (line 287). -/
def toBool (r : ResultVoid E) : Bool := r.hasValue_

/-- Member error accessor (line 293). -/
def getError (r : ResultVoid E) : E := r.error_

end ResultVoid

/-- Shallow embedding of the switch table inside errorCodeToString,
src/ErrorCodes.h lines 115 to 173, one entry per case label in source
order. The keys are the numeric values of the ErrorCode enumerators
(underlying type int16_t); OK and its alias SUCCESS share the value 0 and
the single case label for 0. -/
def errorCodeTable : List (Int × String) :=
  [ (0, "OK")
  , (1, "Unknown error")
  , (2, "Not initialized")
  , (3, "Already initialized")
  , (4, "Invalid parameter")
  , (5, "Invalid state")
  , (6, "Not supported")
  , (7, "Not implemented")
  , (8, "Busy")
  , (9, "Would block")
  , (10, "Out of memory")
  , (11, "Resource exhausted")
  , (12, "Resource not found")
  , (13, "Resource locked")
  , (14, "Resource unavailable")
  , (30, "Timeout")
  , (31, "Mutex error")
  , (32, "Semaphore error")
  , (33, "Deadlock detected")
  , (34, "Queue full")
  , (35, "Queue empty")
  , (50, "I/O error")
  , (51, "Read error")
  , (52, "Write error")
  , (53, "Permission denied")
  , (70, "Data not ready")
  , (71, "Data corrupted")
  , (72, "CRC error")
  , (73, "Checksum error")
  , (74, "Buffer overflow")
  , (75, "Buffer underflow")
  , (76, "Invalid data")
  , (100, "Device not found")
  , (101, "Device error")
  , (102, "Device busy")
  , (103, "Device disconnected")
  , (104, "Hardware failure")
  , (200, "Communication error")
  , (201, "Connection failed")
  , (202, "Connection lost")
  , (203, "Connection refused")
  , (204, "Protocol error")
  , (205, "Send failed")
  , (206, "Receive failed")
  , (300, "Storage error")
  , (301, "Storage full")
  , (302, "File not found")
  , (303, "File exists")
  , (304, "Mount failed")
  , (400, "Network error")
  , (401, "Network unreachable")
  , (402, "Host unreachable")
  , (403, "DNS failed")
  , (404, "SSL error") ]

/-- Sequential first-match search, the control flow of a C++ switch over
distinct case labels. -/
def tableFind (code : Int) : List (Int × String) → Option String
  | [] => none
  | (k, s) :: rest => if code = k then some s else tableFind code rest

/-- Shallow embedding of errorCodeToString (src/ErrorCodes.h lines 115 to
173): the matching case returns its string; the default case returns the
sentinel "Unknown error code". The argument is the numeric value carried by
the ErrorCode argument. -/
def errorCodeToString (code : Int) : String :=
  match tableFind code errorCodeTable with
  | some s => s
  | none => "Unknown error code"

/-- Numeric values of the declared ErrorCode enumerators. The alias
SUCCESS has the same value 0 as OK, so the key list of the table is
exactly the set of declared enumerator values. -/
def declaredErrorCodes : List Int := errorCodeTable.map Prod.fst

end common

/-- Shallow embedding of the macro RETURN_IF_ERROR(expr) from
src/LibraryCommon.h lines 29 to 35, used in a function whose declared
return type is Result T E. The fallible expression is a state transformer
so that its single evaluation is explicit: the expansion binds
auto _result = (expr) exactly once, returns _result when its boolean
conversion is false, and otherwise continues with the rest of the enclosing
function body. -/
def RETURN_IF_ERROR {S T E : Type} (expr : S → common.Result T E × S)
    (rest : S → common.Result T E × S) (s : S) : common.Result T E × S :=
  let p := expr s
  if p.1.toBool then rest p.2 else p

/-- The same macro expansion used with the void specialization: the macro
text is identical, only the Result type differs. -/
def RETURN_IF_ERROR_void {S E : Type} (expr : S → common.ResultVoid E × S)
    (rest : S → common.ResultVoid E × S) (s : S) : common.ResultVoid E × S :=
  let p := expr s
  if p.1.toBool then rest p.2 else p

/-- Helper: a sequential switch search over keys not containing the probed
code falls through to the default case. -/
theorem tableFind_eq_none_of_not_mem (code : Int) (l : List (Int × String))
    (h : code ∉ l.map Prod.fst) : common.tableFind code l = none := by
  induction l with
  | nil => rfl
  | cons p rest ih =>
      obtain ⟨k, s⟩ := p
      simp only [List.map_cons, List.mem_cons, not_or] at h
      simp only [common.tableFind]
      rw [if_neg h.1]
      exact ih h.2

/-- Claim C1: for every Result of either specialization, exactly one of
isOk and isError is true, and the explicit boolean conversion agrees with
isOk. -/
theorem result_isOk_isError_exclusive :
    (∀ (T E : Type) (r : common.Result T E),
        r.isOk = !r.isError ∧ r.toBool = r.isOk)
  ∧ (∀ (E : Type) (r : common.ResultVoid E),
        r.isOk = !r.isError ∧ r.toBool = r.isOk) := by
  constructor
  · intro T E r
    cases hb : r.hasValue_ <;>
      simp [common.Result.isOk, common.Result.isError, common.Result.toBool, hb]
  · intro E r
    cases hb : r.hasValue_ <;>
      simp [common.ResultVoid.isOk, common.ResultVoid.isError,
        common.ResultVoid.toBool, hb]

/-- Claim C2: map applies f to the held value on success, giving
ok (f value); on error it returns a Result carrying the same error
identifier, and the outcome does not depend on f at all. -/
theorem result_map_spec {T E U : Type} [Zero E] [Inhabited U]
    (r : common.Result T E) (f : T → U) :
    (r.isOk = true → r.map f = common.Result.ok (f r.value))
  ∧ (r.isError = true →
      r.map f = common.Result.error r.getError
        ∧ ∀ g : T → U, r.map f = r.map g) := by
  constructor
  · intro h
    simp only [common.Result.isOk] at h
    simp [common.Result.map, common.Result.value, h]
  · intro h
    simp only [common.Result.isError, Bool.not_eq_true'] at h
    refine ⟨?_, ?_⟩
    · simp [common.Result.map, common.Result.getError, h]
    · intro g
      simp [common.Result.map, h]

/-- Witness for C2 at concrete inputs: a success Result holding 3 with the
successor function, and an error Result holding code 7. -/
theorem result_map_spec_witness :
    ((common.Result.ok 3 : common.Result Int Int).isOk = true
      ∧ (common.Result.ok 3 : common.Result Int Int).map (fun x => x + 1)
          = common.Result.ok
              ((fun x => x + 1) (common.Result.ok 3 : common.Result Int Int).value))
  ∧ ((common.Result.error 7 : common.Result Int Int).isError = true
      ∧ (common.Result.error 7 : common.Result Int Int).map (fun x : Int => x + 1)
          = common.Result.error
              (common.Result.error 7 : common.Result Int Int).getError) :=
  ⟨⟨rfl, (result_map_spec (common.Result.ok 3) (fun x => x + 1)).1 rfl⟩,
   ⟨rfl, ((result_map_spec (common.Result.error 7) (fun x : Int => x + 1)).2 rfl).1⟩⟩

/-- Claim C3: andThen invokes f on the held value on success and returns
its outcome directly; on error it forwards the error identifier unchanged
into the declared Result type of f, and the outcome does not depend on f. -/
theorem result_andThen_spec {T E U : Type} [Inhabited U]
    (r : common.Result T E) (f : T → common.Result U E) :
    (r.isOk = true → r.andThen f = f r.value)
  ∧ (r.isError = true →
      r.andThen f = common.Result.error r.getError
        ∧ ∀ g : T → common.Result U E, r.andThen f = r.andThen g) := by
  constructor
  · intro h
    simp only [common.Result.isOk] at h
    simp [common.Result.andThen, common.Result.value, h]
  · intro h
    simp only [common.Result.isError, Bool.not_eq_true'] at h
    refine ⟨?_, ?_⟩
    · simp [common.Result.andThen, common.Result.getError, h]
    · intro g
      simp [common.Result.andThen, h]

/-- Witness for C3 at concrete inputs: a success Result holding 5 chained
into a function that itself fails, and an error Result holding code 30. -/
theorem result_andThen_spec_witness :
    ((common.Result.ok 5 : common.Result Int Int).isOk = true
      ∧ (common.Result.ok 5 : common.Result Int Int).andThen
            (fun _ => (common.Result.error 4 : common.Result Int Int))
          = (fun _ => (common.Result.error 4 : common.Result Int Int))
              (common.Result.ok 5 : common.Result Int Int).value)
  ∧ ((common.Result.error 30 : common.Result Int Int).isError = true
      ∧ (common.Result.error 30 : common.Result Int Int).andThen
            (fun v => (common.Result.ok v : common.Result Int Int))
          = common.Result.error
              (common.Result.error 30 : common.Result Int Int).getError) :=
  ⟨⟨rfl, (result_andThen_spec (common.Result.ok 5)
      (fun _ => (common.Result.error 4 : common.Result Int Int))).1 rfl⟩,
   ⟨rfl, ((result_andThen_spec (common.Result.error 30)
      (fun v => (common.Result.ok v : common.Result Int Int))).2 rfl).1⟩⟩

/-- Claim C4: ok is an identity round-trip: the produced Result is a
success and value returns the value put in. -/
theorem result_ok_roundtrip {T E : Type} [Zero E] (v : T) :
    (common.Result.ok v : common.Result T E).isOk = true
  ∧ (common.Result.ok v : common.Result T E).value = v :=
  ⟨rfl, rfl⟩

/-- Claim C5: for every error identifier distinct from the success
identifier, error produces an error Result whose stored identifier is
returned unchanged, in both the value-carrying and the void
specialization. -/
theorem result_error_roundtrip {T E : Type} [Inhabited T] [Zero E]
    (e : E) (h : e ≠ 0) :
    ((common.Result.error e : common.Result T E).isError = true
      ∧ (common.Result.error e : common.Result T E).getError = e)
  ∧ ((common.ResultVoid.error e).isError = true
      ∧ (common.ResultVoid.error e).getError = e) :=
  ⟨⟨rfl, rfl⟩, ⟨rfl, rfl⟩⟩

/-- Witness for C5 at code 4 (the INVALID_PARAMETER value), which is not
the success identifier. -/
theorem result_error_roundtrip_witness :
    (4 : Int) ≠ 0
  ∧ (((common.Result.error (4 : Int) : common.Result Int Int).isError = true
      ∧ (common.Result.error (4 : Int) : common.Result Int Int).getError = 4)
    ∧ ((common.ResultVoid.error (4 : Int)).isError = true
      ∧ (common.ResultVoid.error (4 : Int)).getError = 4)) :=
  ⟨by decide, @result_error_roundtrip Int Int _ _ 4 (by decide)⟩

/-- Claim C7: the RETURN_IF_ERROR expansion evaluates the fallible
expression exactly once (the resulting state is the state after that one
evaluation); on an error it returns that very Result with its state, and
on a success it continues with the rest of the body, uniformly in both
specializations. -/
theorem return_if_error_spec :
    (∀ (S T E : Type) (expr rest : S → common.Result T E × S) (s : S),
        ((expr s).1.isError = true → RETURN_IF_ERROR expr rest s = expr s)
      ∧ ((expr s).1.isOk = true →
          RETURN_IF_ERROR expr rest s = rest (expr s).2))
  ∧ (∀ (S E : Type) (expr rest : S → common.ResultVoid E × S) (s : S),
        ((expr s).1.isError = true → RETURN_IF_ERROR_void expr rest s = expr s)
      ∧ ((expr s).1.isOk = true →
          RETURN_IF_ERROR_void expr rest s = rest (expr s).2)) := by
  constructor
  · intro S T E expr rest s
    constructor
    · intro h
      simp only [common.Result.isError, Bool.not_eq_true'] at h
      simp [RETURN_IF_ERROR, common.Result.toBool, h]
    · intro h
      simp only [common.Result.isOk] at h
      simp [RETURN_IF_ERROR, common.Result.toBool, h]
  · intro S E expr rest s
    constructor
    · intro h
      simp only [common.ResultVoid.isError, Bool.not_eq_true'] at h
      simp [RETURN_IF_ERROR_void, common.ResultVoid.toBool, h]
    · intro h
      simp only [common.ResultVoid.isOk] at h
      simp [RETURN_IF_ERROR_void, common.ResultVoid.toBool, h]

/-- Witness for C7: an instrumented expression over a Nat evaluation
counter that fails with code 5; the expansion returns that Result with the
counter advanced exactly once. -/
theorem return_if_error_spec_witness :
    ((fun (n : Nat) => ((common.Result.error 5 : common.Result Int Int), n + 1)) 0).1.isError
        = true
  ∧ RETURN_IF_ERROR
        (fun (n : Nat) => ((common.Result.error 5 : common.Result Int Int), n + 1))
        (fun (n : Nat) => ((common.Result.ok 0 : common.Result Int Int), n)) 0
      = ((common.Result.error 5 : common.Result Int Int), 1) :=
  ⟨rfl,
    (return_if_error_spec.1 Nat Int Int
      (fun (n : Nat) => ((common.Result.error 5 : common.Result Int Int), n + 1))
      (fun (n : Nat) => ((common.Result.ok 0 : common.Result Int Int), n)) 0).1 rfl⟩

/-- Claim C8: constructing an error Result with the success identifier
zero is unguarded: it is defined, is reported as an error, and stores the
zero identifier, in both specializations. -/
theorem result_error_with_success_code {T E : Type} [Inhabited T] [Zero E] :
    ((common.Result.error (0 : E) : common.Result T E).isError = true
      ∧ (common.Result.error (0 : E) : common.Result T E).getError = 0)
  ∧ ((common.ResultVoid.error (0 : E)).isError = true
      ∧ (common.ResultVoid.error (0 : E)).getError = 0) :=
  ⟨⟨rfl, rfl⟩, ⟨rfl, rfl⟩⟩

/-- Claim C9: errorCodeToString is total: every declared ErrorCode value
yields a non-empty string, and every numeric value outside the declared
set yields the fixed sentinel "Unknown error code". -/
theorem errorCodeToString_total :
    (∀ c ∈ common.declaredErrorCodes, common.errorCodeToString c ≠ "")
  ∧ (∀ c : Int, c ∉ common.declaredErrorCodes →
      common.errorCodeToString c = "Unknown error code") := by
  constructor
  · decide
  · intro c h
    have hn : common.tableFind c common.errorCodeTable = none :=
      tableFind_eq_none_of_not_mem c common.errorCodeTable h
    simp [common.errorCodeToString, hn]

/-- Witness for C9 at the declared code 0 and at the undeclared value 9999
used by the repository test suite. -/
theorem errorCodeToString_total_witness :
    ((0 : Int) ∈ common.declaredErrorCodes ∧ common.errorCodeToString 0 ≠ "")
  ∧ ((9999 : Int) ∉ common.declaredErrorCodes
      ∧ common.errorCodeToString 9999 = "Unknown error code") :=
  ⟨⟨by decide, errorCodeToString_total.1 0 (by decide)⟩,
   ⟨by decide, errorCodeToString_total.2 9999 (by decide)⟩⟩

/-- Claim C10: wrong-side access on the value-carrying Result is total in
this implementation: the error accessor on a success returns the zero
code that the success constructors store, and the value accessor on an
error returns the value-initialized default that the error constructor
stores. -/
theorem result_wrong_side_access_total {T E : Type} [Inhabited T] [Zero E]
    (v : T) (e : E) :
    (common.Result.ok v : common.Result T E).getError = 0
  ∧ (common.Result.error e : common.Result T E).value = default :=
  ⟨rfl, rfl⟩
